import Mathlib

/-!
Verification development for the docling-reader repository.

The repository is a thin orchestration layer over an external document
conversion engine.  The definitions below are a shallow embedding of the
three source files:

* `src/config.py`        — four default configuration groups (Python dicts);
* `src/advanced_processor.py` — `AdvancedDoclingProcessor` (configuration
  merge, input validation, pipeline-option setup, payload construction,
  multi-format output writing, `process_pdf` orchestration);
* `src/pdf_processor.py` — the minimal `DoclingPDFProcessor` variant.

External effects are made explicit: the engine invocation is a parameter
(`ConversionResult` - the value `converter.convert` returns for the input),
file writes are recorded as a list of output formats, and a possible
exception in each write is a boolean parameter (`WriteFailures`).
Machine floats are modelled as exact rationals.
-/

set_option autoImplicit false

namespace DoclingReader

/-! ## Configuration groups as Python dicts (src/config.py) -/

/-- A value stored in one of the configuration dicts of `config.py`. -/
inductive ConfigValue where
  | bool (b : Bool)
  | nat (n : Nat)
  | str (s : String)
  | strList (l : List String)
deriving DecidableEq, Repr

/-- A Python dict with string keys, in insertion order. -/
abbrev Dict := List (String × ConfigValue)

/-- Python `d[k]` as a total lookup: first binding for the key, if any. -/
def Dict.lookup : Dict → String → Option ConfigValue
  | [], _ => none
  | (k, v) :: d, key => if k = key then some v else Dict.lookup d key

/-- Python `d[k] = v`: replace the binding in place if the key is present,
else append it at the end. -/
def Dict.set : Dict → String → ConfigValue → Dict
  | [], key, v => [(key, v)]
  | (k, w) :: d, key, v =>
      if k = key then (k, v) :: d else (k, w) :: Dict.set d key v

/-- Python `d.update(o)`: set every binding of `o` in `d`, in order. -/
def Dict.update (d o : Dict) : Dict :=
  o.foldl (fun acc kv => Dict.set acc kv.1 kv.2) d

/-- PROCESSING_CONFIG from src/config.py lines 7-29. -/
def PROCESSING_CONFIG : Dict :=
  [("enable_ocr", .bool true),
   ("ocr_languages", .strList ["en"]),
   ("enable_tables", .bool true),
   ("table_cell_matching", .bool true),
   ("generate_page_images", .bool true),
   ("generate_picture_images", .bool true),
   ("enable_picture_classification", .bool true),
   ("image_resolution_scale", .nat 2),
   ("enable_code_enrichment", .bool false),
   ("enable_formula_enrichment", .bool false),
   ("num_threads", .nat 4),
   ("device", .str "auto")]

/-- OUTPUT_CONFIG from src/config.py lines 32-46. -/
def OUTPUT_CONFIG : Dict :=
  [("output_directory", .str "output"),
   ("save_json", .bool true),
   ("save_markdown", .bool true),
   ("save_html", .bool true),
   ("save_text", .bool true),
   ("save_summary", .bool true),
   ("image_mode", .str "placeholder"),
   ("json_indent", .nat 2),
   ("json_ensure_ascii", .bool false)]

/-- FILE_CONFIG from src/config.py lines 49-53. -/
def FILE_CONFIG : Dict :=
  [("supported_extensions", .strList [".pdf"]),
   ("max_file_size_mb", .nat 100),
   ("create_backup", .bool false)]

/-- LOGGING_CONFIG from src/config.py lines 56-61. -/
def LOGGING_CONFIG : Dict :=
  [("level", .str "INFO"),
   ("format", .str "%(asctime)s - %(levelname)s - %(message)s"),
   ("save_logs", .bool true),
   ("log_file", .str "processing.log")]

/-- The `config_override` argument of `AdvancedDoclingProcessor.__init__`:
a dict of up to four group dicts; `config_override.get(group, {})` is the
field, defaulting to the empty dict. -/
structure ConfigOverride where
  processing : Dict := []
  output : Dict := []
  file : Dict := []
  logging : Dict := []

/-- The effective configuration state of an `AdvancedDoclingProcessor`
after `__init__`. -/
structure MergedConfigs where
  processing_config : Dict
  output_config : Dict
  file_config : Dict
  logging_config : Dict

/-- Configuration merge of `AdvancedDoclingProcessor.__init__`
(src/advanced_processor.py lines 43-51): each of the processing, output
and file groups is copied from its module default and then updated with
the corresponding override dict.  The logging group has no counterpart:
`_setup_logging` (lines 65-90) reads the module-level `LOGGING_CONFIG`
directly, so overrides never reach it. -/
def mergeConfigs (ov : ConfigOverride) : MergedConfigs :=
  { processing_config := Dict.update PROCESSING_CONFIG ov.processing
    output_config := Dict.update OUTPUT_CONFIG ov.output
    file_config := Dict.update FILE_CONFIG ov.file
    logging_config := LOGGING_CONFIG }

/-! ## Typed views of the configuration groups

Downstream methods read a fixed set of keys from each group; the
structures below enumerate exactly those keys with the default values of
`config.py`, so the per-method embeddings can be stated over typed
records. -/

/-- The file-handling group (FILE_CONFIG) as a record. -/
structure FileConfig where
  supported_extensions : List String
  max_file_size_mb : Nat
  create_backup : Bool
deriving DecidableEq, Repr

/-- FILE_CONFIG defaults. -/
def defaultFileConfig : FileConfig :=
  { supported_extensions := [".pdf"], max_file_size_mb := 100, create_backup := false }

/-- The processing group (PROCESSING_CONFIG) as a record. -/
structure ProcessingConfig where
  enable_ocr : Bool
  ocr_languages : List String
  enable_tables : Bool
  table_cell_matching : Bool
  generate_page_images : Bool
  generate_picture_images : Bool
  enable_picture_classification : Bool
  image_resolution_scale : Nat
  enable_code_enrichment : Bool
  enable_formula_enrichment : Bool
  num_threads : Nat
  device : String
deriving DecidableEq, Repr

/-- PROCESSING_CONFIG defaults. -/
def defaultProcessingConfig : ProcessingConfig :=
  { enable_ocr := true
    ocr_languages := ["en"]
    enable_tables := true
    table_cell_matching := true
    generate_page_images := true
    generate_picture_images := true
    enable_picture_classification := true
    image_resolution_scale := 2
    enable_code_enrichment := false
    enable_formula_enrichment := false
    num_threads := 4
    device := "auto" }

/-- The output group (OUTPUT_CONFIG) as a record. -/
structure OutputConfig where
  output_directory : String
  save_json : Bool
  save_markdown : Bool
  save_html : Bool
  save_text : Bool
  save_summary : Bool
  image_mode : String
  json_indent : Nat
  json_ensure_ascii : Bool
deriving DecidableEq, Repr

/-- OUTPUT_CONFIG defaults. -/
def defaultOutputConfig : OutputConfig :=
  { output_directory := "output"
    save_json := true
    save_markdown := true
    save_html := true
    save_text := true
    save_summary := true
    image_mode := "placeholder"
    json_indent := 2
    json_ensure_ascii := false }

/-! ## Input files and validation (advanced_processor.py lines 192-208) -/

/-- Python `str.lower()` (character-wise). -/
def lower (s : String) : String := ⟨s.data.map Char.toLower⟩

/-- The filesystem facts `_validate_input_file` consults about the input
path: `Path.exists()`, `Path.suffix` and `Path.stat().st_size`. -/
structure InputFile where
  path : String
  present : Bool
  suffix : String
  size_bytes : Nat
deriving DecidableEq, Repr

/-- Which of the three validation checks failed.  The Python method
returns `False` after logging a message identifying the branch; the
branches are reflected here as error kinds. -/
inductive ValidationError where
  | notFound
  | unsupportedType
  | tooLarge
deriving DecidableEq, Repr

/-- `AdvancedDoclingProcessor._validate_input_file`: existence, then
case-insensitive extension membership, then size ceiling, first failure
short-circuiting.  `file_size_mb = st_size / (1024 * 1024)` is Python
float division, modelled exactly over ℚ. -/
def validateInputFile (fc : FileConfig) (f : InputFile) : Option ValidationError :=
  if !f.present then some .notFound
  else if lower f.suffix ∉ fc.supported_extensions then some .unsupportedType
  else if (f.size_bytes : ℚ) / (1024 * 1024) > (fc.max_file_size_mb : ℚ) then some .tooLarge
  else none

/-! ## Pipeline configuration (advanced_processor.py lines 92-145) -/

/-- `AcceleratorDevice` enumeration of the engine. -/
inductive AcceleratorDevice where
  | AUTO
  | CPU
  | CUDA
deriving DecidableEq, Repr

/-- The fields of `PdfPipelineOptions` that `_setup_converter` assigns.
A field assigned only under a condition is an `Option`, `none` meaning
the assignment did not happen (the engine default is left in place). -/
structure PdfPipelineOptions where
  do_ocr : Bool
  do_table_structure : Bool
  do_cell_matching : Option Bool
  generate_page_images : Bool
  generate_picture_images : Bool
  do_picture_classification : Bool
  images_scale : Option Nat
  do_code_enrichment : Bool
  do_formula_enrichment : Bool
  num_threads : Nat
  device : AcceleratorDevice
deriving DecidableEq, Repr

/-- The `device_map` dict of `_setup_converter` (lines 124-128), as a
partial lookup. -/
def deviceMap (s : String) : Option AcceleratorDevice :=
  if s = "auto" then some .AUTO
  else if s = "cpu" then some .CPU
  else if s = "cuda" then some .CUDA
  else none

/-- `AdvancedDoclingProcessor._setup_converter` (lines 92-145), restricted
to the pipeline options it assembles.  `device_map.get(device, AUTO)` is
`(deviceMap _).getD .AUTO`.  The accelerator import is modelled as
available. -/
def setupPipelineOptions (pc : ProcessingConfig) : PdfPipelineOptions :=
  { do_ocr := pc.enable_ocr
    do_table_structure := pc.enable_tables
    do_cell_matching :=
      if pc.enable_tables then some pc.table_cell_matching else none
    generate_page_images := pc.generate_page_images
    generate_picture_images := pc.generate_picture_images
    do_picture_classification := pc.enable_picture_classification
    images_scale :=
      if pc.generate_page_images then some pc.image_resolution_scale else none
    do_code_enrichment := pc.enable_code_enrichment
    do_formula_enrichment := pc.enable_formula_enrichment
    num_threads := pc.num_threads
    device := (deviceMap pc.device).getD .AUTO }

/-! ## The engine's document object graph (consumed contract) -/

/-- What `table.export_to_dataframe()` does for one table of the
document: succeed with a dataframe of shape (rows, cols), or raise. -/
inductive TableData where
  | exportable (rows cols : Nat)
  | exportFails
deriving DecidableEq, Repr

/-- One picture handle; `hasattr(picture, 'classification')` is the only
fact read from it. -/
structure Picture where
  has_classification_attr : Bool
deriving DecidableEq, Repr

/-- The read contract of the engine's document handle, as consumed by
`_extract_comprehensive_data` and `_generate_extraction_summary`:
`num_pages()`, `tables`, `pictures`, `str(item) for item in texts`, and
`export_to_markdown(strict_text=True)`. -/
structure Document where
  pages : Nat
  tables : List TableData
  pictures : List Picture
  texts : List String
  strict_markdown : String
deriving DecidableEq, Repr

/-- Python `s[:n]` on a string: the first `n` characters. -/
def pyTake (s : String) (n : Nat) : String := ⟨s.data.take n⟩

/-- List-level helper for `pyContains`: does the pattern start here? -/
def listStartsWith : List Char → List Char → Bool
  | [], _ => true
  | _ :: _, [] => false
  | p :: ps, c :: cs => p = c && listStartsWith ps cs

/-- Helper for `pyContains`: pattern occurs at some position. -/
def pyContainsAux (pat : List Char) : List Char → Bool
  | [] => listStartsWith pat []
  | c :: cs => listStartsWith pat (c :: cs) || pyContainsAux pat cs

/-- Python `sub in s` on strings: substring containment. -/
def pyContains (s sub : String) : Bool := pyContainsAux sub.data s.data

/-- Python `len(s.split())`: whitespace-delimited token count, empty
tokens dropped. -/
def pyWordCount (s : String) : Nat :=
  ((s.split Char.isWhitespace).filter (fun w => w ≠ "")).length

/-! ## Result payload construction (advanced_processor.py lines 210-284) -/

/-- A summary field that is either an exact value or the string
`"unknown"`. -/
inductive SummaryVal where
  | num (n : Nat)
  | flag (b : Bool)
  | unknown
deriving DecidableEq, Repr

/-- One entry of `extraction_summary.tables`. -/
structure TableSummary where
  table_id : Nat
  rows : SummaryVal
  columns : SummaryVal
  has_headers : SummaryVal
deriving DecidableEq, Repr

/-- One entry of `extraction_summary.images`. -/
structure ImageSummary where
  image_id : Nat
  type : String
  has_classification : Bool
deriving DecidableEq, Repr

/-- The `extraction_summary` part of the payload. -/
structure ExtractionSummary where
  pages : Nat
  tables : List TableSummary
  images : List ImageSummary
  text_preview : String
deriving DecidableEq, Repr

/-- `AdvancedDoclingProcessor._generate_extraction_summary` (lines
249-284): per-table entries with 1-based ids, falling back to
`"unknown"` fields when the tabular export raises; per-picture entries;
and the 500-character text preview with the `"..."` marker appended
unconditionally. -/
def generateExtractionSummary (d : Document) : ExtractionSummary :=
  { pages := d.pages
    tables := d.tables.enum.map fun it =>
      match it.2 with
      | .exportable r c =>
          { table_id := it.1 + 1, rows := .num r, columns := .num c,
            has_headers := .flag true }
      | .exportFails =>
          { table_id := it.1 + 1, rows := .unknown, columns := .unknown,
            has_headers := .unknown }
    images := d.pictures.enum.map fun ip =>
      { image_id := ip.1 + 1, type := "picture",
        has_classification := ip.2.has_classification_attr }
    text_preview := pyTake d.strict_markdown 500 ++ "..." }

/-- The `statistics` part of the payload. -/
structure Statistics where
  num_tables : Nat
  num_pictures : Nat
  num_figures : Nat
  estimated_word_count : Nat
deriving DecidableEq, Repr

/-- The `stats` dict of `_extract_comprehensive_data` (lines 232-237). -/
def mkStatistics (d : Document) : Statistics :=
  { num_tables := d.tables.length
    num_pictures := d.pictures.length
    num_figures := (d.texts.filter (fun t => pyContains t "Figure")).length
    estimated_word_count := pyWordCount d.strict_markdown }

/-- The `configuration` sub-dict of the metadata (lines 223-228). -/
structure ConfigSnapshot where
  ocr_enabled : Bool
  table_extraction : Bool
  image_processing : Bool
  picture_classification : Bool
deriving DecidableEq, Repr

/-- Python `round(q, 2)`.  (Ties are rounded half-up here where Python
rounds half-to-even; no claim depends on tie behavior.) -/
def round2 (q : ℚ) : ℚ := (round (q * 100) : ℚ) / 100

/-- The `metadata` part of the payload (lines 216-229). -/
structure DocMetadata where
  source_file : String
  file_size_mb : ℚ
  processing_time_seconds : ℚ
  num_pages : Nat
  processor_version : String
  processing_timestamp : String
  configuration : ConfigSnapshot
deriving DecidableEq, Repr

/-- The dictionary `process_pdf` returns on success. -/
structure Payload where
  metadata : DocMetadata
  statistics : Statistics
  document_content : Document
  extraction_summary : ExtractionSummary
deriving DecidableEq, Repr

/-- `AdvancedDoclingProcessor._extract_comprehensive_data` (lines
210-247).  `export_to_dict()` is opaque; the document handle itself
stands for the exported dict in `document_content`.  The wall-clock
processing time and timestamp are parameters. -/
def extractComprehensiveData (pc : ProcessingConfig) (f : InputFile) (d : Document)
    (processing_time : ℚ) (timestamp : String) : Payload :=
  { metadata :=
      { source_file := f.path
        file_size_mb := round2 ((f.size_bytes : ℚ) / (1024 * 1024))
        processing_time_seconds := round2 processing_time
        num_pages := d.pages
        processor_version := "Advanced Docling Processor v1.0"
        processing_timestamp := timestamp
        configuration :=
          { ocr_enabled := pc.enable_ocr
            table_extraction := pc.enable_tables
            image_processing := pc.generate_picture_images
            picture_classification := pc.enable_picture_classification } }
    statistics := mkStatistics d
    document_content := d
    extraction_summary := generateExtractionSummary d }

/-! ## Output writing (advanced_processor.py lines 286-333) -/

/-- The five artifact formats `_save_all_outputs` can write, in source
order. -/
inductive OutputFmt where
  | json
  | markdown
  | html
  | text
  | summary
deriving DecidableEq, Repr

/-- Whether the write of each format would raise an exception (an I/O
failure while producing that artifact). -/
structure WriteFailures where
  json_fails : Bool
  markdown_fails : Bool
  html_fails : Bool
  text_fails : Bool
  summary_fails : Bool
deriving DecidableEq, Repr

/-- All writes succeed. -/
def noWriteFailures : WriteFailures :=
  { json_fails := false, markdown_fails := false, html_fails := false,
    text_fails := false, summary_fails := false }

/-- Failure flag of one format. -/
def writeFails (w : WriteFailures) : OutputFmt → Bool
  | .json => w.json_fails
  | .markdown => w.markdown_fails
  | .html => w.html_fails
  | .text => w.text_fails
  | .summary => w.summary_fails

/-- One sequential statement of `_save_all_outputs`.  State: artifacts
written so far, and whether an exception has been raised.  The method
has no try/except of its own, so once a write raises, no later
statement runs. -/
def writeStep (st : List OutputFmt × Bool) (enabled fails : Bool)
    (fmt : OutputFmt) : List OutputFmt × Bool :=
  if st.2 then st
  else if enabled then
    (if fails then (st.1, true) else (st.1 ++ [fmt], false))
  else st

/-- `AdvancedDoclingProcessor._save_all_outputs` (lines 286-333): the
five conditional writes in source order — JSON, Markdown, HTML, plain
text, summary report.  Returns the artifacts written and whether an
exception escaped the method. -/
def saveAllOutputs (out : OutputConfig) (w : WriteFailures) : List OutputFmt × Bool :=
  let s1 := writeStep ([], false) out.save_json w.json_fails .json
  let s2 := writeStep s1 out.save_markdown w.markdown_fails .markdown
  let s3 := writeStep s2 out.save_html w.html_fails .html
  let s4 := writeStep s3 out.save_text w.text_fails .text
  writeStep s4 out.save_summary w.summary_fails .summary

/-! ## The orchestrating method (advanced_processor.py lines 147-190) -/

/-- The typed configuration state of an `AdvancedDoclingProcessor`. -/
structure ProcessorState where
  processing_config : ProcessingConfig
  output_config : OutputConfig
  file_config : FileConfig
deriving DecidableEq, Repr

/-- A processor with all-default configuration. -/
def defaultProcessorState : ProcessorState :=
  { processing_config := defaultProcessingConfig
    output_config := defaultOutputConfig
    file_config := defaultFileConfig }

/-- What `converter.convert(pdf_file)` returns: `result.status.name` and
`result.document`. -/
structure ConversionResult where
  status : String
  document : Document
deriving DecidableEq, Repr

/-- The observable outcome of one `process_pdf` call: the returned value
(`None` is `none`), whether the engine was invoked, whether
`_save_all_outputs` was invoked, and the artifacts written. -/
structure ProcessOutcome where
  result : Option Payload
  engineCalled : Bool
  writerInvoked : Bool
  written : List OutputFmt
deriving DecidableEq, Repr

/-- `AdvancedDoclingProcessor.process_pdf` (lines 147-190).  Validation
failure returns `None` before the engine runs; a non-SUCCESS status
returns `None`; otherwise the payload is built and, when any of
`save_json`, `save_markdown`, `save_html`, `save_text` is set (line
181 — `save_summary` is not in this list), `_save_all_outputs` runs.  An
exception escaping a write is caught by the method's try/except, which
returns `None`, keeping the artifacts already written on disk. -/
def process_pdf (st : ProcessorState) (f : InputFile) (conv : ConversionResult)
    (w : WriteFailures) (processing_time : ℚ) (timestamp : String) : ProcessOutcome :=
  if validateInputFile st.file_config f ≠ none then
    { result := none, engineCalled := false, writerInvoked := false, written := [] }
  else if conv.status ≠ "SUCCESS" then
    { result := none, engineCalled := true, writerInvoked := false, written := [] }
  else
    let data := extractComprehensiveData st.processing_config f conv.document
      processing_time timestamp
    if st.output_config.save_json || st.output_config.save_markdown ||
        st.output_config.save_html || st.output_config.save_text then
      let res := saveAllOutputs st.output_config w
      { result := if res.2 then none else some data, engineCalled := true,
        writerInvoked := true, written := res.1 }
    else
      { result := some data, engineCalled := true, writerInvoked := false,
        written := [] }

/-! ## The minimal variant (src/pdf_processor.py lines 76-134) -/

/-- The observable outcome of `DoclingPDFProcessor.process_pdf`. -/
structure SimpleOutcome where
  result : Option Document
  engineCalled : Bool
deriving DecidableEq, Repr

/-- `DoclingPDFProcessor.process_pdf` (pdf_processor.py lines 76-134):
existence check, then `suffix.lower() == '.pdf'`, then convert and check
the status.  There is no size check and the function takes no
file-handling configuration at all (`pdf_processor.py` does not import
`config.py`). -/
def simple_process_pdf (f : InputFile) (conv : ConversionResult) : SimpleOutcome :=
  if !f.present then { result := none, engineCalled := false }
  else if !(lower f.suffix = ".pdf") then { result := none, engineCalled := false }
  else if conv.status ≠ "SUCCESS" then { result := none, engineCalled := true }
  else { result := some conv.document, engineCalled := true }

/-! ## Specification-side description of the output-writing order

`enabledFmtsSpec` and the statement of the amended C2 describe
`_save_all_outputs` from the outside: the enabled formats in source
order, of which the written ones are the longest failure-free front. -/

/-- The formats enabled by an output configuration, in the order
`_save_all_outputs` attempts them. -/
def enabledFmtsSpec (out : OutputConfig) : List OutputFmt :=
  (if out.save_json then [OutputFmt.json] else []) ++
  (if out.save_markdown then [OutputFmt.markdown] else []) ++
  (if out.save_html then [OutputFmt.html] else []) ++
  (if out.save_text then [OutputFmt.text] else []) ++
  (if out.save_summary then [OutputFmt.summary] else [])

/-! ## Concrete sample inputs used by witnesses and counterexamples -/

/-- An output configuration in which only the summary report is
requested. -/
def onlySummaryOutput : OutputConfig :=
  { defaultOutputConfig with
    save_json := false
    save_markdown := false
    save_html := false
    save_text := false
    save_summary := true }

/-- A processor configured to write only the summary report. -/
def onlySummaryState : ProcessorState :=
  { defaultProcessorState with output_config := onlySummaryOutput }

/-- An existing 1 MiB PDF file. -/
def sampleFile : InputFile :=
  { path := "doc.pdf", present := true, suffix := ".pdf", size_bytes := 1048576 }

/-- A small document with two tables whose export succeeds, one whose
export raises, and two pictures. -/
def sampleDoc : Document :=
  { pages := 2
    tables := [.exportable 2 3, .exportFails, .exportable 4 5]
    pictures := [{ has_classification_attr := true }, { has_classification_attr := false }]
    texts := ["Figure 1", "plain paragraph"]
    strict_markdown := "hello world" }

/-- A document whose strict-text export is empty. -/
def emptyTextDoc : Document :=
  { pages := 1, tables := [], pictures := [], texts := [], strict_markdown := "" }

/-- A successful engine result carrying `sampleDoc`. -/
def successConv : ConversionResult := { status := "SUCCESS", document := sampleDoc }

/-- An engine result with a non-SUCCESS status. -/
def failureConv : ConversionResult := { status := "FAILURE", document := sampleDoc }

/-- Writes where only the JSON dump raises. -/
def jsonFailOnly : WriteFailures := { noWriteFailures with json_fails := true }

/-- An override that only targets the logging group. -/
def loggingOverride : ConfigOverride := { logging := [("level", .str "DEBUG")] }

/-- An override touching one key in each of the three merged groups. -/
def sampleOverride : ConfigOverride :=
  { processing := [("enable_ocr", .bool false)]
    output := [("save_html", .bool false)]
    file := [("max_file_size_mb", .nat 5)] }

/-- A processing configuration with an unrecognized device string. -/
def tpuProcessingConfig : ProcessingConfig :=
  { defaultProcessingConfig with device := "tpu", generate_page_images := false }

/-! ## Helper lemmas -/

/-- The exact-rational size check of `_validate_input_file` is the
integer comparison against the ceiling in bytes. -/
theorem size_cond_iff (s m : Nat) :
    ((s : ℚ) / (1024 * 1024) > (m : ℚ)) ↔ m * 1048576 < s := by
  rw [gt_iff_lt, lt_div_iff₀ (by norm_num : (0 : ℚ) < 1024 * 1024)]
  constructor
  · intro h
    exact_mod_cast h
  · intro h
    exact_mod_cast h

/-- `validateInputFile` with the size check on integers. -/
theorem validateInputFile_eq (fc : FileConfig) (f : InputFile) :
    validateInputFile fc f =
      if !f.present then some .notFound
      else if lower f.suffix ∉ fc.supported_extensions then some .unsupportedType
      else if fc.max_file_size_mb * 1048576 < f.size_bytes then some .tooLarge
      else none := by
  simp only [validateInputFile, size_cond_iff]

/-- Looking up after a single Python assignment `d[key] = v`. -/
theorem Dict.lookup_set (d : Dict) (key k : String) (v : ConfigValue) :
    Dict.lookup (Dict.set d key v) k = if key = k then some v else Dict.lookup d k := by
  induction d with
  | nil => simp [Dict.set, Dict.lookup]
  | cons kv d ih =>
    obtain ⟨k0, w0⟩ := kv
    by_cases h0 : k0 = key
    · subst h0
      by_cases hk : k0 = k <;> simp [Dict.set, Dict.lookup, hk]
    · by_cases hk : k0 = k
      · subst hk
        have hne : ¬k0 = key := h0
        have hne2 : ¬key = k0 := fun h => h0 h.symm
        simp [Dict.set, Dict.lookup, hne, hne2]
      · simp [Dict.set, Dict.lookup, h0, hk, ih]

/-- A key absent from a dict looks up to `none`. -/
theorem Dict.lookup_eq_none (o : Dict) (k : String) (h : k ∉ o.map Prod.fst) :
    Dict.lookup o k = none := by
  induction o with
  | nil => rfl
  | cons kv o ih =>
    obtain ⟨k0, w0⟩ := kv
    simp only [List.map_cons, List.mem_cons] at h
    push_neg at h
    have hne : ¬k0 = k := fun hh => h.1 hh.symm
    simp [Dict.lookup, hne, ih h.2]

/-- Python `d.update(o)` is a shallow merge: a key bound in `o` wins,
any other key keeps its binding from `d`. -/
theorem Dict.lookup_update (d o : Dict) (k : String)
    (h : (o.map Prod.fst).Nodup) :
    Dict.lookup (Dict.update d o) k =
      ((Dict.lookup o k).orElse fun _ => Dict.lookup d k) := by
  induction o generalizing d with
  | nil => simp [Dict.update, Dict.lookup, Option.orElse]
  | cons kv o ih =>
    obtain ⟨k0, v0⟩ := kv
    simp only [List.map_cons, List.nodup_cons] at h
    have hupd : Dict.update d ((k0, v0) :: o) = Dict.update (Dict.set d k0 v0) o := rfl
    rw [hupd, ih _ h.2]
    by_cases hk : k0 = k
    · subst hk
      have hnone : Dict.lookup o k0 = none := Dict.lookup_eq_none o k0 h.1
      simp [hnone, Dict.lookup, Dict.lookup_set, Option.orElse]
    · cases hlo : Dict.lookup o k <;>
        simp [Dict.lookup, hk, Dict.lookup_set, Option.orElse, hlo]

/-! ## Claim theorems -/

/-- C4: whenever the conversion engine returns a result whose status is
not SUCCESS, `process_pdf` returns a failure (`None`) and writes zero
output files — the writer is not even invoked. -/
theorem C4_non_success_writes_nothing (st : ProcessorState) (f : InputFile)
    (conv : ConversionResult) (w : WriteFailures) (t : ℚ) (ts : String)
    (hst : conv.status ≠ "SUCCESS") :
    (process_pdf st f conv w t ts).result = none ∧
    (process_pdf st f conv w t ts).writerInvoked = false ∧
    (process_pdf st f conv w t ts).written = [] := by
  rw [process_pdf]
  by_cases hv : validateInputFile st.file_config f = none <;> simp [hv, hst]

/-- C4 witness: a concrete FAILURE status on a valid input yields no
payload and no written artifact. -/
theorem C4_non_success_writes_nothing_witness :
    (process_pdf defaultProcessorState sampleFile failureConv noWriteFailures 1 "ts").result
        = none ∧
    (process_pdf defaultProcessorState sampleFile failureConv noWriteFailures 1 "ts").writerInvoked
        = false ∧
    (process_pdf defaultProcessorState sampleFile failureConv noWriteFailures 1 "ts").written
        = [] :=
  C4_non_success_writes_nothing defaultProcessorState sampleFile failureConv
    noWriteFailures 1 "ts" (by decide)

/-- C5: validation performs the three checks in the fixed order
existence, case-insensitive extension membership, size ceiling, each
error kind arising exactly when its check is the first to fail; and the
engine is invoked exactly when validation passes. -/
theorem C5_validation_order (st : ProcessorState) (f : InputFile)
    (conv : ConversionResult) (w : WriteFailures) (t : ℚ) (ts : String) :
    (validateInputFile st.file_config f = some .notFound ↔ f.present = false) ∧
    (validateInputFile st.file_config f = some .unsupportedType ↔
      f.present = true ∧ lower f.suffix ∉ st.file_config.supported_extensions) ∧
    (validateInputFile st.file_config f = some .tooLarge ↔
      f.present = true ∧ lower f.suffix ∈ st.file_config.supported_extensions ∧
      (f.size_bytes : ℚ) / (1024 * 1024) > (st.file_config.max_file_size_mb : ℚ)) ∧
    ((process_pdf st f conv w t ts).engineCalled = true ↔
      validateInputFile st.file_config f = none) := by
  refine ⟨?_, ?_, ?_, ?_⟩
  · unfold validateInputFile
    split_ifs <;> simp_all
  · unfold validateInputFile
    split_ifs <;> simp_all
  · unfold validateInputFile
    split_ifs <;> simp_all
  · rw [process_pdf]
    by_cases hv : validateInputFile st.file_config f = none
    · by_cases hst : conv.status = "SUCCESS"
      · by_cases hb : (st.output_config.save_json || st.output_config.save_markdown ||
            st.output_config.save_html || st.output_config.save_text) = true <;>
          simp [hv, hst, hb]
      · simp [hv, hst]
    · simp [hv]

/-- C6: an existing file with a supported extension passes validation at
exactly `max_file_size_mb` MiB and fails with the too-large error one
byte over. -/
theorem C6_size_boundary (fc : FileConfig) (path sfx : String)
    (hext : lower sfx ∈ fc.supported_extensions) :
    validateInputFile fc
        { path := path, present := true, suffix := sfx,
          size_bytes := fc.max_file_size_mb * 1024 * 1024 } = none ∧
    validateInputFile fc
        { path := path, present := true, suffix := sfx,
          size_bytes := fc.max_file_size_mb * 1024 * 1024 + 1 } = some .tooLarge := by
  have harith : fc.max_file_size_mb * 1024 * 1024 = fc.max_file_size_mb * 1048576 := by
    ring
  rw [validateInputFile_eq, validateInputFile_eq]
  constructor
  · rw [harith]
    simp [hext]
  · rw [harith]
    simp [hext, Nat.lt_succ_self]

/-- C6 witness: with the default file configuration (ceiling 100 MB and
extension `.pdf`), 104857600 bytes pass and 104857601 bytes fail as too
large. -/
theorem C6_size_boundary_witness :
    validateInputFile defaultFileConfig
        { path := "big.pdf", present := true, suffix := ".pdf",
          size_bytes := 100 * 1024 * 1024 } = none ∧
    validateInputFile defaultFileConfig
        { path := "big.pdf", present := true, suffix := ".pdf",
          size_bytes := 100 * 1024 * 1024 + 1 } = some .tooLarge :=
  C6_size_boundary defaultFileConfig "big.pdf" ".pdf" (by decide)

/-- C10: in the minimal variant, an existing file whose suffix
lower-cases to ".pdf" always reaches the engine: there is no size
check (the embedding of `DoclingPDFProcessor.process_pdf` takes no
file-handling configuration), so the engine is invoked for every byte
size. -/
theorem C10_minimal_no_size_check (f : InputFile) (conv : ConversionResult)
    (hp : f.present = true) (hs : lower f.suffix = ".pdf") :
    (simple_process_pdf f conv).engineCalled = true ∧
    (∀ n : Nat,
      (simple_process_pdf { f with size_bytes := n } conv).engineCalled = true) := by
  constructor
  · rw [simple_process_pdf]
    by_cases hst : conv.status = "SUCCESS" <;> simp [hp, hs, hst]
  · intro n
    rw [simple_process_pdf]
    by_cases hst : conv.status = "SUCCESS" <;> simp [hp, hs, hst]

/-- C10 witness: a one-terabyte `.PDF` file (far above the advanced
variant's 100 MB ceiling) is passed to the engine by the minimal
variant. -/
theorem C10_minimal_no_size_check_witness :
    (simple_process_pdf
        { path := "huge.PDF", present := true, suffix := ".PDF",
          size_bytes := 1099511627776 }
        successConv).engineCalled = true :=
  (C10_minimal_no_size_check
    { path := "huge.PDF", present := true, suffix := ".PDF",
      size_bytes := 1099511627776 }
    successConv (by decide) (by decide)).1

/-- C1 counterexample: with only `save_summary` enabled, a successful
conversion builds the payload, yet `_save_all_outputs` is never invoked
and no artifact — in particular no summary report — is written, because
line 181 tests only `save_json`, `save_markdown`, `save_html` and
`save_text`. -/
theorem C1_counterexample :
    onlySummaryState.output_config.save_summary = true ∧
    (process_pdf onlySummaryState sampleFile successConv noWriteFailures 1 "ts").result.isSome
        = true ∧
    (process_pdf onlySummaryState sampleFile successConv noWriteFailures 1 "ts").writerInvoked
        = false ∧
    (process_pdf onlySummaryState sampleFile successConv noWriteFailures 1 "ts").written
        = [] := by
  refine ⟨rfl, ?_, ?_, ?_⟩ <;> (rw [process_pdf, validateInputFile_eq]; decide)

/-- C1 (amended): after a successful conversion and payload build,
`process_pdf` invokes the output writer if and only if at least one of
`save_json`, `save_markdown`, `save_html`, `save_text` is set —
`save_summary` alone does not trigger it — and when the writer is not
invoked nothing is written. -/
theorem C1_writer_gate (st : ProcessorState) (f : InputFile)
    (conv : ConversionResult) (w : WriteFailures) (t : ℚ) (ts : String)
    (hval : validateInputFile st.file_config f = none)
    (hst : conv.status = "SUCCESS") :
    ((process_pdf st f conv w t ts).writerInvoked = true ↔
      (st.output_config.save_json || st.output_config.save_markdown ||
       st.output_config.save_html || st.output_config.save_text) = true) ∧
    ((process_pdf st f conv w t ts).writerInvoked = false →
      (process_pdf st f conv w t ts).written = []) := by
  rw [process_pdf]
  by_cases hb : (st.output_config.save_json || st.output_config.save_markdown ||
      st.output_config.save_html || st.output_config.save_text) = true <;>
    simp [hval, hst, hb]

/-- C1 witness: with the all-default configuration (all four gate flags
set) on a valid input and a successful conversion, the writer is
invoked. -/
theorem C1_writer_gate_witness :
    (process_pdf defaultProcessorState sampleFile successConv noWriteFailures 1 "ts").writerInvoked
        = true :=
  (C1_writer_gate defaultProcessorState sampleFile successConv noWriteFailures 1 "ts"
    (by rw [validateInputFile_eq]; decide) (by decide)).1.mpr (by decide)

/-- C2 counterexample: with every format enabled and only the JSON write
raising, nothing at all is written — the enabled Markdown, HTML, text
and summary outputs are never attempted, refuting per-format
isolation. -/
theorem C2_counterexample :
    defaultOutputConfig.save_markdown = true ∧
    defaultOutputConfig.save_html = true ∧
    defaultOutputConfig.save_text = true ∧
    defaultOutputConfig.save_summary = true ∧
    saveAllOutputs defaultOutputConfig jsonFailOnly = ([], true) := by
  refine ⟨rfl, rfl, rfl, rfl, ?_⟩
  decide

/-- C2 (amended): `_save_all_outputs` attempts the enabled formats
strictly in source order and a failing write aborts all later ones (the
exception escapes to `process_pdf`): the artifacts written are the
longest failure-free front of the enabled-format list, and an exception
escapes exactly when some enabled format fails. -/
theorem C2_sequential_abort (out : OutputConfig) (w : WriteFailures) :
    saveAllOutputs out w =
      ((enabledFmtsSpec out).takeWhile (fun fmt => !writeFails w fmt),
       (enabledFmtsSpec out).any (writeFails w)) := by
  obtain ⟨dir, j, m, h, t, s, imode, ind, asc⟩ := out
  obtain ⟨jf, mf, hf, tf, sf⟩ := w
  cases j <;> cases m <;> cases h <;> cases t <;> cases s <;>
    cases jf <;> cases mf <;> cases hf <;> cases tf <;> cases sf <;> rfl

/-- C3 counterexample: an override of the logging group is ignored — the
processor's effective logging configuration keeps the module default
`INFO` level, so the merge does not cover all four groups. -/
theorem C3_counterexample :
    Dict.lookup loggingOverride.logging "level" = some (.str "DEBUG") ∧
    Dict.lookup (mergeConfigs loggingOverride).logging_config "level"
        = some (.str "INFO") ∧
    Dict.lookup (mergeConfigs loggingOverride).logging_config "level"
        ≠ some (.str "DEBUG") := by
  refine ⟨rfl, rfl, ?_⟩
  decide

/-- C3 (amended): the construction-time merge is a shallow group-by-group
merge of the processing, output and file groups — an overriding key
replaces its default, every other key keeps its default — while the
logging group is never merged: it always keeps the module defaults. -/
theorem C3_shallow_merge (ov : ConfigOverride) (k : String)
    (hp : (ov.processing.map Prod.fst).Nodup)
    (ho : (ov.output.map Prod.fst).Nodup)
    (hf : (ov.file.map Prod.fst).Nodup) :
    (Dict.lookup (mergeConfigs ov).processing_config k =
      ((Dict.lookup ov.processing k).orElse fun _ => Dict.lookup PROCESSING_CONFIG k)) ∧
    (Dict.lookup (mergeConfigs ov).output_config k =
      ((Dict.lookup ov.output k).orElse fun _ => Dict.lookup OUTPUT_CONFIG k)) ∧
    (Dict.lookup (mergeConfigs ov).file_config k =
      ((Dict.lookup ov.file k).orElse fun _ => Dict.lookup FILE_CONFIG k)) ∧
    (mergeConfigs ov).logging_config = LOGGING_CONFIG := by
  exact ⟨Dict.lookup_update PROCESSING_CONFIG ov.processing k hp,
    Dict.lookup_update OUTPUT_CONFIG ov.output k ho,
    Dict.lookup_update FILE_CONFIG ov.file k hf, rfl⟩

/-- C3 witness: overriding one key per merged group replaces exactly
that key (`enable_ocr` becomes false, `max_file_size_mb` becomes 5)
while an untouched key (`num_threads`) keeps its default. -/
theorem C3_shallow_merge_witness :
    Dict.lookup (mergeConfigs sampleOverride).processing_config "enable_ocr"
        = some (.bool false) ∧
    Dict.lookup (mergeConfigs sampleOverride).processing_config "num_threads"
        = some (.nat 4) ∧
    Dict.lookup (mergeConfigs sampleOverride).file_config "max_file_size_mb"
        = some (.nat 5) := by
  have h1 := C3_shallow_merge sampleOverride "enable_ocr" (by decide) (by decide) (by decide)
  have h2 := C3_shallow_merge sampleOverride "num_threads" (by decide) (by decide) (by decide)
  have h3 := C3_shallow_merge sampleOverride "max_file_size_mb" (by decide) (by decide) (by decide)
  exact ⟨h1.1.trans (by decide), h2.1.trans (by decide), h3.2.2.1.trans (by decide)⟩

/-- C7: the extraction summary has exactly one table entry per document
table, with 1-based ids in document order; a table whose export
succeeds records its exact row and column counts with
`has_headers = true`, a table whose export raises records all three
fields as "unknown"; and `statistics.num_tables` is the table count
either way. -/
theorem C7_table_summaries (d : Document) :
    (mkStatistics d).num_tables = d.tables.length ∧
    (generateExtractionSummary d).tables.length = d.tables.length ∧
    (∀ (i r c : Nat), d.tables[i]? = some (TableData.exportable r c) →
      (generateExtractionSummary d).tables[i]? =
        some { table_id := i + 1, rows := .num r, columns := .num c,
               has_headers := .flag true }) ∧
    (∀ (i : Nat), d.tables[i]? = some TableData.exportFails →
      (generateExtractionSummary d).tables[i]? =
        some { table_id := i + 1, rows := .unknown, columns := .unknown,
               has_headers := .unknown }) := by
  refine ⟨rfl, ?_, ?_, ?_⟩
  · simp [generateExtractionSummary, List.enum_length]
  · intro i r c hi
    simp [generateExtractionSummary, List.getElem?_map, List.getElem?_enum, hi]
  · intro i hi
    simp [generateExtractionSummary, List.getElem?_map, List.getElem?_enum, hi]

/-- C7 witness: on a document with three tables (the second raising on
export) and two pictures, the summary has the failing table's fields all
"unknown" and `num_tables = 3`. -/
theorem C7_table_summaries_witness :
    (mkStatistics sampleDoc).num_tables = 3 ∧
    (generateExtractionSummary sampleDoc).tables.length = 3 ∧
    (generateExtractionSummary sampleDoc).tables[0]? =
      some { table_id := 1, rows := .num 2, columns := .num 3,
             has_headers := .flag true } ∧
    (generateExtractionSummary sampleDoc).tables[1]? =
      some { table_id := 2, rows := .unknown, columns := .unknown,
             has_headers := .unknown } := by
  have h := C7_table_summaries sampleDoc
  exact ⟨h.1, h.2.1, h.2.2.1 0 2 3 (by decide), h.2.2.2 1 (by decide)⟩

/-- C8: for every document, the text preview is the first 500 characters
of the strict-text Markdown export with the three-character ellipsis
marker appended unconditionally; its length is therefore at most 503
characters, and for an empty export it is exactly the bare marker. -/
theorem C8_text_preview (d : Document) :
    (generateExtractionSummary d).text_preview
        = pyTake d.strict_markdown 500 ++ "..." ∧
    (generateExtractionSummary d).text_preview.length ≤ 503 ∧
    (d.strict_markdown = "" → (generateExtractionSummary d).text_preview = "...") := by
  refine ⟨rfl, ?_, ?_⟩
  · show (pyTake d.strict_markdown 500 ++ "...").length ≤ 503
    rw [String.length_append]
    have h1 : (pyTake d.strict_markdown 500).length ≤ 500 := by
      rw [pyTake, String.length_mk, List.length_take]
      exact min_le_left _ _
    have h2 : ("..." : String).length = 3 := rfl
    omega
  · intro h
    show pyTake d.strict_markdown 500 ++ "..." = "..."
    rw [h]
    rfl

/-- C8 witness: a document whose strict-text export is empty gets the
bare ellipsis marker as its preview, of length 3 ≤ 503. -/
theorem C8_text_preview_witness :
    (generateExtractionSummary emptyTextDoc).text_preview = "..." ∧
    (generateExtractionSummary emptyTextDoc).text_preview.length ≤ 503 := by
  have h := C8_text_preview emptyTextDoc
  exact ⟨h.2.2 rfl, h.2.1⟩

/-- C9: the pipeline configurer sets table cell-matching exactly when
table extraction is enabled, sets the image resolution scale exactly
when page-image generation is enabled, and maps the device string
through the fixed enumeration auto/cpu/cuda with AUTO as the fallback
for every other string. -/
theorem C9_pipeline_mapping (pc : ProcessingConfig) :
    ((setupPipelineOptions pc).do_cell_matching ≠ none ↔ pc.enable_tables = true) ∧
    (pc.enable_tables = true →
      (setupPipelineOptions pc).do_cell_matching = some pc.table_cell_matching) ∧
    ((setupPipelineOptions pc).images_scale ≠ none ↔ pc.generate_page_images = true) ∧
    (pc.generate_page_images = true →
      (setupPipelineOptions pc).images_scale = some pc.image_resolution_scale) ∧
    ((setupPipelineOptions pc).device =
      if pc.device = "auto" then .AUTO
      else if pc.device = "cpu" then .CPU
      else if pc.device = "cuda" then .CUDA
      else .AUTO) := by
  refine ⟨?_, ?_, ?_, ?_, ?_⟩
  · cases ht : pc.enable_tables <;> simp [setupPipelineOptions, ht]
  · intro h
    simp [setupPipelineOptions, h]
  · cases hp : pc.generate_page_images <;> simp [setupPipelineOptions, hp]
  · intro h
    simp [setupPipelineOptions, h]
  · show (deviceMap pc.device).getD .AUTO = _
    rw [deviceMap]
    split_ifs <;> rfl

/-- C9 witness: with tables enabled and the unrecognized device string
"tpu", cell matching is set and the device falls back to AUTO; with
page images disabled the resolution scale is left unset. -/
theorem C9_pipeline_mapping_witness :
    (setupPipelineOptions tpuProcessingConfig).do_cell_matching = some true ∧
    (setupPipelineOptions tpuProcessingConfig).images_scale = none ∧
    (setupPipelineOptions tpuProcessingConfig).device = .AUTO := by
  have h := C9_pipeline_mapping tpuProcessingConfig
  refine ⟨h.2.1 rfl, ?_, h.2.2.2.2.trans (by decide)⟩
  have h3 := h.2.2.1
  by_cases hs : (setupPipelineOptions tpuProcessingConfig).images_scale = none
  · exact hs
  · exact absurd (h3.mp hs) (by decide)

end DoclingReader
